import Mathlib

/-!
Shallow embedding of the request-orchestration core of the
`mcp_based_simple_rag` repository (backend/app): the resource-fetching
client with local fallback (`services/mcp_client.py`), the generation
service (`services/llm_service.py`), the chat orchestrator and the
message-listing query (`main.py`), and the persisted record model
(`models.py`, `schemas.py`).

Side effects (HTTP calls, the language-model invocation, the database
commit) are modelled as explicit oracle inputs; exceptions are modelled
with `Except`.
-/

namespace RagSpec

/-! ## Resource client (`backend/app/services/mcp_client.py`) -/

/-- Outcome of parsing an HTTP response body as JSON, as seen by
`response.json()` followed by `result.get("content", default)`:
the body may fail to parse (raising), or parse to an object whose
`content` field is present or absent. -/
inductive JsonBody (α : Type) where
  | malformed (msg : String)
  | object (content : Option α)
deriving Repr

/-- Outcome of the remote HTTP GET performed by the client: either the
network call itself raises, or a reply with a status code and a body
arrives. -/
inductive RemoteFetch (α : Type) where
  | networkError (msg : String)
  | reply (status : Nat) (body : JsonBody α)
deriving Repr

/-- Embeds the remote branch of each fetch method:
`response = await self.client.get(...)`, `response.raise_for_status()`
(raises unless the status is a 2xx success), `result = response.json()`
(raises on a malformed body), `return result.get("content", default)`. -/
def remoteAttempt {α : Type} (default : α) : RemoteFetch α → Except String α
  | .networkError m => .error m
  | .reply status body =>
    if 200 ≤ status ∧ status < 300 then
      match body with
      | .malformed m => .error m
      | .object c => .ok (c.getD default)
    else .error ("HTTP status error " ++ toString status)

/-- State of the fixed local fallback file: readable with some content,
absent (`mcp_path.exists()` is false), or present but failing to read. -/
inductive LocalFile (α : Type) where
  | found (content : α)
  | missing
  | readFailure (msg : String)
deriving Repr

/-- Embeds the local-fallback branch of each fetch method: check
`mcp_path.exists()`, read the file if it exists, otherwise raise
`Could not find ... file at ...`. -/
def localAttempt {α : Type} (label path : String) : LocalFile α → Except String α
  | .found c => .ok c
  | .missing => .error ("Could not find " ++ label ++ " file at " ++ path)
  | .readFailure m => .error m

/-- Error raised when both the remote fetch and the local fallback fail;
it carries the resource label and both underlying error messages, as the
combined exception message in the source does. -/
inductive FetchError where
  | unavailable (handle remoteErr localErr : String)
deriving Repr, DecidableEq

/-- Result of one fetch call, together with the number of local-fallback
read attempts it performed. -/
structure FetchOutcome (α : Type) where
  result : Except FetchError α
  localReads : Nat

/-- Embeds the shared shape of `get_faq_content`, `get_query_prompt` and
`get_answer_prompt`: try the remote fetch; on any exception fall back to
one local read attempt; if that also fails raise the combined error
carrying both causes. -/
def fetchResource {α : Type} (label path : String) (default : α)
    (remote : RemoteFetch α) (localFile : LocalFile α) : FetchOutcome α :=
  match remoteAttempt default remote with
  | .ok c => ⟨.ok c, 0⟩
  | .error re =>
    match localAttempt label path localFile with
    | .ok c => ⟨.ok c, 1⟩
    | .error le => ⟨.error (.unavailable label re le), 1⟩

/-- Embeds `MCPClient.get_faq_content`. -/
def get_faq_content (remote : RemoteFetch String) (localFile : LocalFile String) :
    FetchOutcome String :=
  fetchResource "FAQ" "mcp_server/resources/faq.txt" "" remote localFile

/-! ## Templates and the generation service (`backend/app/services/llm_service.py`) -/

/-- One piece of a parsed Python format string: literal text or a named
placeholder (`\x7bname\x7d`). -/
inductive TemplatePiece where
  | lit (s : String)
  | placeholder (name : String)
deriving Repr, DecidableEq

/-- A prompt template, as consumed by `str.format`. -/
abbrev Template := List TemplatePiece

/-- Embeds `MCPClient.get_query_prompt`. -/
def get_query_prompt (remote : RemoteFetch Template) (localFile : LocalFile Template) :
    FetchOutcome Template :=
  fetchResource "query prompt" "mcp_server/prompts/query_generate.txt" [] remote localFile

/-- Embeds `MCPClient.get_answer_prompt`. -/
def get_answer_prompt (remote : RemoteFetch Template) (localFile : LocalFile Template) :
    FetchOutcome Template :=
  fetchResource "answer prompt" "mcp_server/prompts/answer_generate.txt" [] remote localFile

/-- Keyword-argument lookup for `str.format`. -/
def lookupSub : List (String × String) → String → Option String
  | [], _ => none
  | (k, v) :: rest, name => if k == name then some v else lookupSub rest name

/-- Embeds `prompt_template.format(...)`: substitute every placeholder,
raising `KeyError` (the missing name) on the first placeholder whose name
was not supplied. No partially substituted output is ever produced. -/
def renderTemplate (env : List (String × String)) : Template → Except String String
  | [] => .ok ""
  | .lit s :: rest => (renderTemplate env rest).map (s ++ ·)
  | .placeholder n :: rest =>
    match lookupSub env n with
    | none => .error n
    | some v => (renderTemplate env rest).map (v ++ ·)

/-- One turn of conversation history (`schemas.ConversationMessage`);
the optional timestamp plays no role in the generation service. -/
structure ConversationMessage where
  role : String
  content : String
deriving Repr, DecidableEq

/-- Role label used by `_format_conversation_history`:
`"User" if msg.role == "user" else "Assistant"`. -/
def roleLabel (role : String) : String :=
  if role == "user" then "User" else "Assistant"

/-- Rendering of a single history turn: `f"\x7brole\x7d: \x7bmsg.content\x7d"`. -/
def turnLine (m : ConversationMessage) : String :=
  roleLabel m.role ++ ": " ++ m.content

/-- Embeds `"\n".join(formatted)`: concatenate the lines with a newline
between consecutive lines. -/
def joinLines : List String → String
  | [] => ""
  | [x] => x
  | x :: rest => x ++ "\n" ++ joinLines rest

/-- Embeds `LLMService._format_conversation_history`: an empty history
renders as the fixed placeholder text, otherwise each turn is rendered in
order and the lines are joined by newlines. -/
def formatConversationHistory : List ConversationMessage → String
  | [] => "No previous conversation."
  | history => joinLines (history.map turnLine)

/-- A message handed to the language model (`SystemMessage` / `HumanMessage`). -/
inductive ChatMessage where
  | system (content : String)
  | human (content : String)
deriving Repr, DecidableEq

/-- Failure of one generation-service operation: the template referenced a
name the service does not supply (`KeyError` from `format`), or the model
invocation itself raised. -/
inductive LLMError where
  | templateError (missing : String)
  | generationError (msg : String)
deriving Repr, DecidableEq

/-- An oracle for `self.llm.ainvoke`: maps the message list to the raw
model output, or to an error when the provider call raises. -/
abbrev ModelOracle := List ChatMessage → Except String String

/-- Whitespace characters removed by Python `str.strip()`. -/
def isPySpace (c : Char) : Bool :=
  c == ' ' || c == '\t' || c == '\n' || c == '\r' || c == '\x0b' || c == '\x0c'

/-- Embeds `str.strip()`: remove leading and trailing whitespace. -/
def pyStrip (s : String) : String :=
  ⟨((s.data.dropWhile isPySpace).reverse.dropWhile isPySpace).reverse⟩

/-- Substitutions supplied by `generate_query`:
`conversation_history` and `user_query`. -/
def querySubs (historyText userQuery : String) : List (String × String) :=
  [("conversation_history", historyText), ("user_query", userQuery)]

/-- Message list built by `generate_query`. -/
def queryMessages (prompt : String) : List ChatMessage :=
  [.system "You are a helpful assistant that refines user queries.", .human prompt]

/-- Embeds `LLMService.generate_query`: format the history, render the
template with the history text and the user query, invoke the model with
the fixed system instruction plus the rendered prompt, and return the
output with surrounding whitespace stripped. -/
def generate_query (userQuery : String) (history : List ConversationMessage)
    (template : Template) (model : ModelOracle) : Except LLMError String :=
  let historyText := formatConversationHistory history
  match renderTemplate (querySubs historyText userQuery) template with
  | .error n => .error (.templateError n)
  | .ok prompt =>
    match model (queryMessages prompt) with
    | .error e => .error (.generationError e)
    | .ok resp => .ok (pyStrip resp)

/-- Substitutions supplied by `generate_answer`:
`faq_content` and `refined_query`. -/
def answerSubs (faqContent refinedQuery : String) : List (String × String) :=
  [("faq_content", faqContent), ("refined_query", refinedQuery)]

/-- Message list built by `generate_answer`. -/
def answerMessages (prompt : String) : List ChatMessage :=
  [.system "You are a helpful customer support assistant.", .human prompt]

/-- Embeds `LLMService.generate_answer`: render the template with the FAQ
content and the refined query, invoke the model with the fixed system
instruction plus the rendered prompt, and return the stripped output. -/
def generate_answer (refinedQuery faqContent : String) (template : Template)
    (model : ModelOracle) : Except LLMError String :=
  match renderTemplate (answerSubs faqContent refinedQuery) template with
  | .error n => .error (.templateError n)
  | .ok prompt =>
    match model (answerMessages prompt) with
    | .error e => .error (.generationError e)
    | .ok resp => .ok (pyStrip resp)

/-! ## Schemas (`backend/app/schemas.py`) -/

/-- Embeds `schemas.QueryGenerateRequest`. -/
structure QueryGenerateRequest where
  user_query : String
  conversation_history : List ConversationMessage
deriving Repr, DecidableEq

/-- Embeds `schemas.QueryGenerateResponse`. -/
structure QueryGenerateResponse where
  refined_query : String
  original_query : String
deriving Repr, DecidableEq

/-- Embeds `schemas.AnswerGenerateRequest`; it carries the conversation
history even though the answer endpoint never reads it. -/
structure AnswerGenerateRequest where
  refined_query : String
  original_query : String
  conversation_history : List ConversationMessage
deriving Repr, DecidableEq

/-- Embeds `schemas.AnswerGenerateResponse`. -/
structure AnswerGenerateResponse where
  answer : String
  refined_query : String
  original_query : String
deriving Repr, DecidableEq

/-- Embeds `schemas.ChatRequest`. -/
structure ChatRequest where
  user_query : String
  conversation_history : List ConversationMessage
deriving Repr, DecidableEq

/-- Embeds `schemas.ChatResponse`. -/
structure ChatResponse where
  answer : String
  refined_query : String
  original_query : String
  conversation_id : Option String
deriving Repr, DecidableEq

/-! ## Persisted records and the store (`backend/app/models.py`, database session) -/

/-- Record as constructed by the `chat` endpoint before `db.commit()`:
the caller populates every column except `id`, including `timestamp`
(set to `datetime.utcnow()` at construction). The `id` column is absent
here because it is assigned by the database on commit. Time is modelled
as a natural number of clock ticks. -/
structure PendingRecord where
  user_query : String
  refined_query : String
  answer : String
  conversation_id : Option String
  timestamp : Nat
deriving Repr, DecidableEq

/-- Embeds the committed `models.MessageLog` row: the pending fields plus
the store-assigned primary key `id`. -/
structure MessageLog where
  id : Nat
  user_query : String
  refined_query : String
  answer : String
  conversation_id : Option String
  timestamp : Nat
deriving Repr, DecidableEq

/-- State of the message-log store: the committed rows in insertion order
and the autoincrement counter for the primary key. -/
structure DBState where
  committed : List MessageLog
  nextId : Nat
deriving Repr, DecidableEq

/-- Embeds a successful `db.add(record); await db.commit()`: the single
atomic transaction appends the row with the store-assigned primary key
and advances the autoincrement counter. Atomicity of the commit itself is
the storage engine's contract (SQLAlchemy over PostgreSQL). -/
def commitRecord (db : DBState) (p : PendingRecord) : DBState :=
  { committed := db.committed ++
      [⟨db.nextId, p.user_query, p.refined_query, p.answer, p.conversation_id, p.timestamp⟩],
    nextId := db.nextId + 1 }

/-! ## Endpoints and the orchestrator (`backend/app/main.py`) -/

/-- All oracle inputs one request consumes: the remote/local state seen by
each of the three resource fetches, the model oracle for each generation
stage, the fresh UUID, the value of `datetime.utcnow()` read by the
orchestrator, and the outcome of `db.commit()` (`none` = commit succeeds,
`some msg` = the commit raises and the transaction is rolled back). -/
structure ChatEnv where
  queryPromptRemote : RemoteFetch Template
  queryPromptLocal : LocalFile Template
  faqRemote : RemoteFetch String
  faqLocal : LocalFile String
  answerPromptRemote : RemoteFetch Template
  answerPromptLocal : LocalFile Template
  queryModel : ModelOracle
  answerModel : ModelOracle
  freshUuid : String
  now : Nat
  commitFailure : Option String

/-- Rendering of a `FetchError` as the exception message the endpoint
wraps into its HTTP 500 detail. -/
def fetchErrorMsg : FetchError → String
  | .unavailable h re le =>
    "Could not get " ++ h ++ " from MCP server or local file: " ++ re ++ ", " ++ le

/-- Rendering of an `LLMError` as an exception message. -/
def llmErrorMsg : LLMError → String
  | .templateError n => "KeyError: " ++ n
  | .generationError m => m

/-- Embeds the `/query_generate` endpoint: fetch the query prompt through
the resource client, refine the query, and wrap any exception into the
HTTP 500 detail `Query generation failed: ...`. -/
def query_generate (req : QueryGenerateRequest) (env : ChatEnv) :
    Except String QueryGenerateResponse :=
  match (get_query_prompt env.queryPromptRemote env.queryPromptLocal).result with
  | .error e => .error ("Query generation failed: " ++ fetchErrorMsg e)
  | .ok template =>
    match generate_query req.user_query req.conversation_history template env.queryModel with
    | .error e => .error ("Query generation failed: " ++ llmErrorMsg e)
    | .ok refined => .ok ⟨refined, req.user_query⟩

/-- Embeds the `/answer_generate` endpoint: fetch the FAQ content and the
answer prompt, generate the answer from the refined query, and wrap any
exception into `Answer generation failed: ...`. The request's
`conversation_history` field is never read. -/
def answer_generate (req : AnswerGenerateRequest) (env : ChatEnv) :
    Except String AnswerGenerateResponse :=
  match (get_faq_content env.faqRemote env.faqLocal).result with
  | .error e => .error ("Answer generation failed: " ++ fetchErrorMsg e)
  | .ok faqContent =>
    match (get_answer_prompt env.answerPromptRemote env.answerPromptLocal).result with
    | .error e => .error ("Answer generation failed: " ++ fetchErrorMsg e)
    | .ok template =>
      match generate_answer req.refined_query faqContent template env.answerModel with
      | .error e => .error ("Answer generation failed: " ++ llmErrorMsg e)
      | .ok ans => .ok ⟨ans, req.refined_query, req.original_query⟩

/-- Message list the `/answer_generate` endpoint hands to the model, when
template rendering succeeds; a projection of the `messages` local of
`generate_answer` as invoked by the endpoint on its request. -/
def answer_generate_messages (req : AnswerGenerateRequest) (faqContent : String)
    (template : Template) : Except String (List ChatMessage) :=
  (renderTemplate (answerSubs faqContent req.refined_query) template).map answerMessages

/-- Embeds the `/chat` endpoint: refine the query, generate the answer,
then persist one record built from the completed stages, with a fresh
conversation id and `timestamp=datetime.utcnow()`, in one commit. Any
exception triggers `await db.rollback()` — the pending add is discarded
and the committed state is unchanged — and is wrapped into
`Chat processing failed: ...`. Returns the response (or error) paired
with the store state after the request. -/
def chat (req : ChatRequest) (env : ChatEnv) (db : DBState) :
    Except String ChatResponse × DBState :=
  match query_generate ⟨req.user_query, req.conversation_history⟩ env with
  | .error e => (.error ("Chat processing failed: " ++ e), db)
  | .ok q =>
    match answer_generate ⟨q.refined_query, req.user_query, req.conversation_history⟩ env with
    | .error e => (.error ("Chat processing failed: " ++ e), db)
    | .ok a =>
      let cid := env.freshUuid
      let pending : PendingRecord :=
        ⟨req.user_query, q.refined_query, a.answer, some cid, env.now⟩
      match env.commitFailure with
      | some msg => (.error ("Chat processing failed: " ++ msg), db)
      | none => (.ok ⟨a.answer, q.refined_query, req.user_query, some cid⟩,
                 commitRecord db pending)

/-- Truthiness of the optional `conversation_id` query parameter:
`if conversation_id:` is false for `None` and for the empty string. -/
def convFilterActive : Option String → Bool
  | none => false
  | some c => !(c == "")

/-- Row predicate of the `WHERE conversation_id = :c` clause. -/
def matchesConv (cid : Option String) (r : MessageLog) : Bool :=
  match cid with
  | none => true
  | some c => if c == "" then true else r.conversation_id == some c

/-- Ordering used by `ORDER BY timestamp DESC`. -/
def tsDesc (a b : MessageLog) : Prop := b.timestamp ≤ a.timestamp

instance : DecidableRel tsDesc := fun a b => Nat.decLe b.timestamp a.timestamp

instance : IsTotal MessageLog tsDesc := ⟨fun a b => le_total b.timestamp a.timestamp⟩

instance : IsTrans MessageLog tsDesc := ⟨fun _ _ _ hab hbc => le_trans hbc hab⟩

/-- Embeds the `/messages` endpoint: select the rows matching the
optional conversation filter, order them by timestamp descending, then
apply `OFFSET offset LIMIT limit`. -/
def get_messages (limit offset : Nat) (cid : Option String) (db : DBState) :
    List MessageLog :=
  ((List.insertionSort tsDesc (db.committed.filter (matchesConv cid))).drop offset).take limit

/-- Embeds the `/messages/count` endpoint: count of rows matching the
optional conversation filter. -/
def get_message_count (cid : Option String) (db : DBState) : Nat :=
  (db.committed.filter (matchesConv cid)).length

/-! ## Concrete fixtures used to exercise the model -/

/-- A minimal query-refinement template using only supplied names. -/
def sampleQueryTemplate : Template :=
  [TemplatePiece.lit "History: ", TemplatePiece.placeholder "conversation_history",
   TemplatePiece.lit " Query: ", TemplatePiece.placeholder "user_query"]

/-- A minimal answer template using only supplied names. -/
def sampleAnswerTemplate : Template :=
  [TemplatePiece.lit "FAQ: ", TemplatePiece.placeholder "faq_content",
   TemplatePiece.lit " Question: ", TemplatePiece.placeholder "refined_query"]

/-- An environment in which every stage succeeds. -/
def envOK : ChatEnv :=
  { queryPromptRemote := .reply 200 (.object (some sampleQueryTemplate))
    queryPromptLocal := .missing
    faqRemote := .reply 200 (.object (some "faq text"))
    faqLocal := .missing
    answerPromptRemote := .reply 200 (.object (some sampleAnswerTemplate))
    answerPromptLocal := .missing
    queryModel := fun _ => .ok " refined "
    answerModel := fun _ => .ok "the answer"
    freshUuid := "uuid-1"
    now := 5
    commitFailure := none }

/-- The successful environment with the orchestrator clock reading `n`. -/
def envAt (n : Nat) : ChatEnv := { envOK with now := n }

/-- An environment in which the query-prompt fetch fails both remotely and
locally, so the request fails in the refinement stage. -/
def envFail : ChatEnv :=
  { envOK with queryPromptRemote := .networkError "down", queryPromptLocal := .missing }

/-- An environment in which both generation stages succeed but the
database commit raises. -/
def envCommitFail : ChatEnv :=
  { envOK with commitFailure := some "commit refused" }

/-- A sample chat request. -/
def req0 : ChatRequest := ⟨"hello", []⟩

/-- The empty store. -/
def db0 : DBState := ⟨[], 0⟩

/-- The response produced by `chat req0 envOK db0`. -/
def resp0 : ChatResponse := ⟨"the answer", "refined", "hello", some "uuid-1"⟩

/-- The store state after `chat req0 envOK db0`. -/
def db0After : DBState :=
  ⟨[⟨0, "hello", "refined", "the answer", some "uuid-1", 5⟩], 1⟩

/-- Sample committed rows with timestamps 1 < 2 < 3; two of them share
conversation id `abc`. -/
def rowA : MessageLog := ⟨1, "q1", "r1", "a1", some "abc", 1⟩

/-- Sample row with timestamp 2 and no conversation id. -/
def rowB : MessageLog := ⟨2, "q2", "r2", "a2", none, 2⟩

/-- Sample row with timestamp 3 and conversation id `abc`. -/
def rowC : MessageLog := ⟨3, "q3", "r3", "a3", some "abc", 3⟩

/-- A model oracle whose output is whitespace only. -/
def blankModel : ModelOracle := fun _ => .ok "   "

/-- A template referencing a name neither service supplies. -/
def badTemplate : Template := [TemplatePiece.placeholder "oops"]

/-- Sample answer request with an empty history. -/
def histReq1 : AnswerGenerateRequest := ⟨"rq", "oq", []⟩

/-- Sample answer request agreeing with `histReq1` on everything except
the conversation history. -/
def histReq2 : AnswerGenerateRequest := ⟨"rq", "oq", [⟨"user", "earlier question"⟩]⟩

/-! ## Helper lemmas -/

theorem lookupSub_pair (k1 k2 v1 v2 n : String) :
    lookupSub [(k1, v1), (k2, v2)] n =
      if k1 = n then some v1 else if k2 = n then some v2 else none := by
  simp [lookupSub, beq_iff_eq]

theorem lookupSub_querySubs (historyText userQuery n : String) :
    lookupSub (querySubs historyText userQuery) n =
      if "conversation_history" = n then some historyText
      else if "user_query" = n then some userQuery else none :=
  lookupSub_pair _ _ _ _ n

theorem lookupSub_answerSubs (faqContent refinedQuery n : String) :
    lookupSub (answerSubs faqContent refinedQuery) n =
      if "faq_content" = n then some faqContent
      else if "refined_query" = n then some refinedQuery else none :=
  lookupSub_pair _ _ _ _ n

theorem render_ok_lookup (env : List (String × String)) :
    ∀ (t : Template) (s : String), renderTemplate env t = .ok s →
      ∀ n, TemplatePiece.placeholder n ∈ t → ∃ v, lookupSub env n = some v := by
  intro t
  induction t with
  | nil => intro s _ n hn; simp at hn
  | cons piece rest ih =>
    intro s hok n hn
    cases piece with
    | lit str =>
      cases hrest : renderTemplate env rest with
      | error e => rw [renderTemplate, hrest] at hok; simp [Except.map] at hok
      | ok s0 =>
        rcases List.mem_cons.mp hn with h | h
        · simp at h
        · exact ih s0 hrest n h
    | placeholder m =>
      cases hl : lookupSub env m with
      | none => rw [renderTemplate, hl] at hok; simp at hok
      | some v =>
        rcases List.mem_cons.mp hn with h | h
        · obtain rfl : n = m := by simpa using h
          exact ⟨v, hl⟩
        · cases hrest : renderTemplate env rest with
          | error e => rw [renderTemplate, hl, hrest] at hok; simp [Except.map] at hok
          | ok s0 => exact ih s0 hrest n h

theorem render_error_of_missing (env : List (String × String)) (t : Template) (n : String)
    (hmem : TemplatePiece.placeholder n ∈ t) (hnone : lookupSub env n = none) :
    ∃ m, renderTemplate env t = .error m := by
  cases hr : renderTemplate env t with
  | ok s =>
    rcases render_ok_lookup env t s hr n hmem with ⟨v, hv⟩
    rw [hv] at hnone
    cases hnone
  | error m => exact ⟨m, rfl⟩

/-! ## Claim theorems -/

/-- C2: for every resource fetch, if the remote fetch succeeds the local
fallback path is never read (zero local read attempts, and the returned
content is the remote content), and if the remote fetch fails for any
reason — network error, non-success status, or malformed response body —
the local path is read exactly once; instantiated at `get_faq_content`
and `get_query_prompt`. -/
theorem fetch_local_fallback_discipline :
    (∀ (α : Type) (label path : String) (default : α) (remote : RemoteFetch α)
        (localFile : LocalFile α) (c : α),
       remoteAttempt default remote = .ok c →
       fetchResource label path default remote localFile = ⟨.ok c, 0⟩) ∧
    (∀ (α : Type) (label path : String) (default : α) (remote : RemoteFetch α)
        (localFile : LocalFile α) (e : String),
       remoteAttempt default remote = .error e →
       (fetchResource label path default remote localFile).localReads = 1) ∧
    (∀ (remote : RemoteFetch String) (localFile : LocalFile String),
       (get_faq_content remote localFile).localReads =
         if (remoteAttempt "" remote).isOk then 0 else 1) ∧
    (∀ (remote : RemoteFetch Template) (localFile : LocalFile Template),
       (get_query_prompt remote localFile).localReads =
         if (remoteAttempt ([] : Template) remote).isOk then 0 else 1) := by
  refine ⟨?_, ?_, ?_, ?_⟩
  · intro α label path default remote localFile c hc
    simp [fetchResource, hc]
  · intro α label path default remote localFile e he
    cases hl : localAttempt label path localFile <;> simp [fetchResource, he, hl]
  · intro remote localFile
    cases hr : remoteAttempt "" remote with
    | ok c => simp [get_faq_content, fetchResource, hr, Except.isOk, Except.toBool]
    | error e =>
      cases hl : localAttempt "FAQ" "mcp_server/resources/faq.txt" localFile <;>
        simp [get_faq_content, fetchResource, hr, hl, Except.isOk, Except.toBool]
  · intro remote localFile
    cases hr : remoteAttempt ([] : Template) remote with
    | ok c => simp [get_query_prompt, fetchResource, hr, Except.isOk, Except.toBool]
    | error e =>
      cases hl : localAttempt "query prompt" "mcp_server/prompts/query_generate.txt" localFile <;>
        simp [get_query_prompt, fetchResource, hr, hl, Except.isOk, Except.toBool]

/-- C2 witness: a successful remote fetch performs no local read and
returns the remote content; a network error leads to exactly one local
read. -/
theorem fetch_local_fallback_discipline_witness :
    get_faq_content (.reply 200 (.object (some "faq body"))) (.found "local body") =
      ⟨.ok "faq body", 0⟩ ∧
    (get_faq_content (.networkError "conn refused") (.found "local body")).localReads = 1 :=
  ⟨fetch_local_fallback_discipline.1 String "FAQ" "mcp_server/resources/faq.txt" ""
      (.reply 200 (.object (some "faq body"))) (.found "local body") "faq body" rfl,
   fetch_local_fallback_discipline.2.1 String "FAQ" "mcp_server/resources/faq.txt" ""
      (.networkError "conn refused") (.found "local body") "conn refused" rfl⟩

/-- C6: a resource fetch raises the unavailable error exactly when both
the remote attempt and the local attempt fail, and the error carries the
handle together with both the remote and the local error. -/
theorem fetch_unavailable_carries_both :
    (∀ (α : Type) (label path : String) (default : α) (remote : RemoteFetch α)
        (localFile : LocalFile α) (e : FetchError),
       (fetchResource label path default remote localFile).result = .error e →
       ∃ re le, remoteAttempt default remote = .error re ∧
         localAttempt label path localFile = .error le ∧
         e = .unavailable label re le) ∧
    (∀ (α : Type) (label path : String) (default : α) (remote : RemoteFetch α)
        (localFile : LocalFile α) (re le : String),
       remoteAttempt default remote = .error re →
       localAttempt label path localFile = .error le →
       (fetchResource label path default remote localFile).result =
         .error (.unavailable label re le)) := by
  constructor
  · intro α label path default remote localFile e he
    cases hr : remoteAttempt default remote with
    | ok c => simp [fetchResource, hr] at he
    | error re =>
      cases hl : localAttempt label path localFile with
      | ok c => simp [fetchResource, hr, hl] at he
      | error le =>
        refine ⟨re, le, rfl, rfl, ?_⟩
        simp [fetchResource, hr, hl] at he
        exact he.symm
  · intro α label path default remote localFile re le hr hl
    simp [fetchResource, hr, hl]

/-- C6 witness: with the remote connection refused and the local file
absent, `get_faq_content` fails with the unavailable error carrying both
causes. -/
theorem fetch_unavailable_carries_both_witness :
    (get_faq_content (.networkError "conn refused") .missing).result =
      .error (.unavailable "FAQ" "conn refused"
        "Could not find FAQ file at mcp_server/resources/faq.txt") :=
  fetch_unavailable_carries_both.2 String "FAQ" "mcp_server/resources/faq.txt" ""
    (.networkError "conn refused") .missing "conn refused"
    "Could not find FAQ file at mcp_server/resources/faq.txt" rfl rfl

/-- C4 counterexample: a model invocation returning a whitespace-only
response does not fail; `generate_query` returns the empty string.
No `GenerationError` (or any error) is raised on empty output. -/
theorem empty_output_counterexample :
    generate_query "hi" [] sampleQueryTemplate blankModel = .ok "" := rfl

/-- C4 (amended): when the model invocation succeeds, both operations
return the stripped model output — including the empty string when the
output is whitespace only; an empty response is returned, not rejected. -/
theorem empty_output_returned :
    ∀ (userQuery : String) (history : List ConversationMessage) (t : Template)
      (model : ModelOracle) (p out : String),
      (renderTemplate (querySubs (formatConversationHistory history) userQuery) t = .ok p →
        model (queryMessages p) = .ok out →
        generate_query userQuery history t model = .ok (pyStrip out)) ∧
      (∀ refinedQuery faqContent : String,
        renderTemplate (answerSubs faqContent refinedQuery) t = .ok p →
        model (answerMessages p) = .ok out →
        generate_answer refinedQuery faqContent t model = .ok (pyStrip out)) := by
  intro userQuery history t model p out
  constructor
  · intro h1 h2
    simp [generate_query, h1, h2]
  · intro refinedQuery faqContent h1 h2
    simp [generate_answer, h1, h2]

/-- C4 (amended) witness: with a whitespace-only model output the refined
query comes back as the stripped (empty) string. -/
theorem empty_output_returned_witness :
    generate_query "hi" [] sampleQueryTemplate blankModel = .ok (pyStrip "   ") :=
  (empty_output_returned "hi" [] sampleQueryTemplate blankModel
    "History: No previous conversation. Query: hi" "   ").1 rfl rfl

/-- C5: template rendering is strict and fail-closed. A template
referencing a name the service does not supply makes `generate_query`
(resp. `generate_answer`) fail with a template error, and on success every
placeholder of the template is one of the supplied names, so no
unresolved placeholder can survive into the output. -/
theorem strict_rendering_fail_closed :
    ∀ (t : Template) (n userQuery refinedQuery faqContent : String)
      (history : List ConversationMessage) (model : ModelOracle),
      (TemplatePiece.placeholder n ∈ t → n ≠ "conversation_history" → n ≠ "user_query" →
        ∃ m, generate_query userQuery history t model = .error (.templateError m)) ∧
      (∀ out, generate_query userQuery history t model = .ok out →
        ∀ k, TemplatePiece.placeholder k ∈ t →
          k = "conversation_history" ∨ k = "user_query") ∧
      (TemplatePiece.placeholder n ∈ t → n ≠ "faq_content" → n ≠ "refined_query" →
        ∃ m, generate_answer refinedQuery faqContent t model = .error (.templateError m)) ∧
      (∀ out, generate_answer refinedQuery faqContent t model = .ok out →
        ∀ k, TemplatePiece.placeholder k ∈ t →
          k = "faq_content" ∨ k = "refined_query") := by
  intro t n userQuery refinedQuery faqContent history model
  refine ⟨?_, ?_, ?_, ?_⟩
  · intro hmem hn1 hn2
    have hnone : lookupSub (querySubs (formatConversationHistory history) userQuery) n =
        none := by
      rw [lookupSub_querySubs, if_neg (fun h => hn1 h.symm), if_neg (fun h => hn2 h.symm)]
    obtain ⟨m, hm⟩ := render_error_of_missing _ t n hmem hnone
    exact ⟨m, by simp [generate_query, hm]⟩
  · intro out hok k hk
    cases hr : renderTemplate (querySubs (formatConversationHistory history) userQuery) t with
    | error m => simp [generate_query, hr] at hok
    | ok p =>
      obtain ⟨v, hv⟩ := render_ok_lookup _ t p hr k hk
      rw [lookupSub_querySubs] at hv
      by_cases h1 : "conversation_history" = k
      · exact Or.inl h1.symm
      · rw [if_neg h1] at hv
        by_cases h2 : "user_query" = k
        · exact Or.inr h2.symm
        · rw [if_neg h2] at hv
          cases hv
  · intro hmem hn1 hn2
    have hnone : lookupSub (answerSubs faqContent refinedQuery) n = none := by
      rw [lookupSub_answerSubs, if_neg (fun h => hn1 h.symm), if_neg (fun h => hn2 h.symm)]
    obtain ⟨m, hm⟩ := render_error_of_missing _ t n hmem hnone
    exact ⟨m, by simp [generate_answer, hm]⟩
  · intro out hok k hk
    cases hr : renderTemplate (answerSubs faqContent refinedQuery) t with
    | error m => simp [generate_answer, hr] at hok
    | ok p =>
      obtain ⟨v, hv⟩ := render_ok_lookup _ t p hr k hk
      rw [lookupSub_answerSubs] at hv
      by_cases h1 : "faq_content" = k
      · exact Or.inl h1.symm
      · rw [if_neg h1] at hv
        by_cases h2 : "refined_query" = k
        · exact Or.inr h2.symm
        · rw [if_neg h2] at hv
          cases hv

/-- C5 witness: a template referencing the unsupplied name `oops` makes
`generate_query` fail with a template error. -/
theorem strict_rendering_fail_closed_witness :
    ∃ m, generate_query "hi" [] badTemplate blankModel =
      .error (.templateError m) :=
  (strict_rendering_fail_closed badTemplate "oops" "hi" "rq" "faq" [] blankModel).1
    (by decide) (by decide) (by decide)

/-- C9: the conversation history is flattened one `Role: content` line
per turn, joined by newlines in list order (oldest first); the empty
history renders as the fixed non-empty placeholder text; the rendered
history text is exactly what the `conversation_history` placeholder
substitutes; and the refined query returned is the model output with
surrounding whitespace stripped. -/
theorem history_flattening :
    ∀ (m m2 : ConversationMessage) (ms : List ConversationMessage)
      (userQuery p out : String) (t : Template) (model : ModelOracle)
      (history : List ConversationMessage),
      (formatConversationHistory [] = "No previous conversation.") ∧
      ("No previous conversation." ≠ "") ∧
      (formatConversationHistory (m :: ms) = joinLines ((m :: ms).map turnLine)) ∧
      (turnLine m = roleLabel m.role ++ ": " ++ m.content) ∧
      (joinLines (turnLine m :: turnLine m2 :: List.map turnLine ms) =
        turnLine m ++ "\n" ++ joinLines (turnLine m2 :: List.map turnLine ms)) ∧
      (renderTemplate (querySubs (formatConversationHistory history) userQuery)
          [TemplatePiece.placeholder "conversation_history"] =
        .ok (formatConversationHistory history)) ∧
      (renderTemplate (querySubs (formatConversationHistory history) userQuery) t = .ok p →
        model (queryMessages p) = .ok out →
        generate_query userQuery history t model = .ok (pyStrip out)) := by
  intro m m2 ms userQuery p out t model history
  refine ⟨rfl, by decide, rfl, rfl, rfl, ?_, ?_⟩
  · simp [renderTemplate, querySubs, lookupSub, Except.map]
  · intro h1 h2
    simp [generate_query, h1, h2]

/-- C9 witness: a two-turn history flattens to the two role-labelled
lines joined by a newline, oldest first, and with an empty history the
non-empty placeholder text is substituted into the prompt. -/
theorem history_flattening_witness :
    formatConversationHistory [⟨"user", "hi"⟩, ⟨"assistant", "hello"⟩] =
      joinLines [turnLine ⟨"user", "hi"⟩, turnLine ⟨"assistant", "hello"⟩] ∧
    generate_query "q" [] sampleQueryTemplate blankModel = .ok (pyStrip "   ") :=
  ⟨(history_flattening ⟨"user", "hi"⟩ ⟨"assistant", "hello"⟩ [⟨"assistant", "hello"⟩] "q"
      "History: No previous conversation. Query: q" "   " sampleQueryTemplate blankModel
      []).2.2.1,
   (history_flattening ⟨"user", "hi"⟩ ⟨"assistant", "hello"⟩ [] "q"
      "History: No previous conversation. Query: q" "   " sampleQueryTemplate blankModel
      []).2.2.2.2.2.2 rfl rfl⟩

/-- C10: two answer-generation requests agreeing on the refined query,
the FAQ content and the answer template produce the same prompt and the
same messages to the model, whatever their conversation histories; when
they also agree on the original query, the whole endpoint result is
identical. -/
theorem answer_stage_history_independent :
    ∀ (r1 r2 : AnswerGenerateRequest) (faqContent : String) (t : Template) (env : ChatEnv),
      r1.refined_query = r2.refined_query →
      (answer_generate_messages r1 faqContent t = answer_generate_messages r2 faqContent t) ∧
      (r1.original_query = r2.original_query →
        answer_generate r1 env = answer_generate r2 env) := by
  intro r1 r2 faqContent t env h
  obtain ⟨a1, b1, c1⟩ := r1
  obtain ⟨a2, b2, c2⟩ := r2
  simp only [AnswerGenerateRequest.refined_query] at h
  subst h
  constructor
  · rfl
  · intro h2
    simp only [AnswerGenerateRequest.original_query] at h2
    subst h2
    rfl

/-- C10 witness: two requests differing only in conversation history
produce identical messages and an identical endpoint result. -/
theorem answer_stage_history_independent_witness :
    answer_generate_messages histReq1 "faq" sampleAnswerTemplate =
      answer_generate_messages histReq2 "faq" sampleAnswerTemplate ∧
    answer_generate histReq1 envOK = answer_generate histReq2 envOK :=
  ⟨(answer_stage_history_independent histReq1 histReq2 "faq" sampleAnswerTemplate envOK
      rfl).1,
   (answer_stage_history_independent histReq1 histReq2 "faq" sampleAnswerTemplate envOK
      rfl).2 rfl⟩

theorem chat_run_shape (req : ChatRequest) (env : ChatEnv) (db : DBState) :
    (∃ e, chat req env db = (.error e, db)) ∨
    (∃ q a, chat req env db =
        (.ok ⟨a, q, req.user_query, some env.freshUuid⟩,
         commitRecord db ⟨req.user_query, q, a, some env.freshUuid, env.now⟩)) := by
  rcases hq : query_generate ⟨req.user_query, req.conversation_history⟩ env with e | q
  · exact Or.inl ⟨"Chat processing failed: " ++ e, by simp [chat, hq]⟩
  · rcases ha : answer_generate ⟨q.refined_query, req.user_query, req.conversation_history⟩
        env with e | a
    · exact Or.inl ⟨"Chat processing failed: " ++ e, by simp [chat, hq, ha]⟩
    · rcases hc : env.commitFailure with _ | msg
      · exact Or.inr ⟨q.refined_query, a.answer, by simp [chat, hq, ha, hc]⟩
      · exact Or.inl ⟨"Chat processing failed: " ++ msg, by simp [chat, hq, ha, hc]⟩

/-- C1: a chat request that fails at any stage — template fetch, query
refinement, answer generation, or the storage commit itself — leaves the
store exactly as it was (commit-or-rollback atomicity): `list()` shows no
new record afterwards. A record is only ever created by a successful
request, whole, with every field taken from the completed stages, so no
record with a partially-populated answer field ever exists. -/
theorem chat_failure_leaves_store_unchanged :
    ∀ (req : ChatRequest) (env : ChatEnv) (db : DBState),
      ((chat req env db).1.isOk = false →
        (chat req env db).2 = db ∧
        ∀ l o cid, get_messages l o cid (chat req env db).2 = get_messages l o cid db) ∧
      (∀ resp db2, chat req env db = (.ok resp, db2) →
        ∃ row : MessageLog, db2.committed = db.committed ++ [row] ∧
          row.user_query = req.user_query ∧ row.refined_query = resp.refined_query ∧
          row.answer = resp.answer ∧ row.conversation_id = resp.conversation_id ∧
          row.timestamp = env.now) := by
  intro req env db
  rcases chat_run_shape req env db with ⟨e0, h0⟩ | ⟨q0, a0, h0⟩
  · constructor
    · intro _
      rw [h0]
      exact ⟨rfl, fun l o cid => rfl⟩
    · intro resp db2 h
      rw [h0] at h
      simp [Prod.ext_iff] at h
  · constructor
    · intro hfalse
      rw [h0] at hfalse
      simp [Except.isOk, Except.toBool] at hfalse
    · intro resp db2 h
      rw [h0] at h
      obtain ⟨h1, h2⟩ := Prod.mk.injEq .. |>.mp h.symm
      obtain rfl : resp = ⟨a0, q0, req.user_query, some env.freshUuid⟩ := by
        simpa using h1
      refine ⟨⟨db.nextId, req.user_query, q0, a0, some env.freshUuid, env.now⟩,
        ?_, rfl, rfl, rfl, rfl, rfl⟩
      rw [h2]
      rfl

/-- C1 witness: with the commit refused (and separately with the
refinement-stage fetch down) the store after the failed request equals
the store before it. -/
theorem chat_failure_leaves_store_unchanged_witness :
    (chat req0 envCommitFail db0).2 = db0 ∧ (chat req0 envFail db0).2 = db0 :=
  ⟨((chat_failure_leaves_store_unchanged req0 envCommitFail db0).1 rfl).1,
   ((chat_failure_leaves_store_unchanged req0 envFail db0).1 rfl).1⟩

/-- C3: a successful chat request on a non-empty `user_query` appends
exactly one new record, whose `user_query` field is the input verbatim,
and returns the answer, refined query, original query and conversation id
of that exchange. -/
theorem chat_success_one_record :
    ∀ (req : ChatRequest) (env : ChatEnv) (db : DBState) (resp : ChatResponse)
      (db2 : DBState),
      req.user_query ≠ "" →
      chat req env db = (.ok resp, db2) →
      ∃ row : MessageLog,
        db2.committed = db.committed ++ [row] ∧
        row.user_query = req.user_query ∧
        resp.answer = row.answer ∧
        resp.refined_query = row.refined_query ∧
        resp.original_query = req.user_query ∧
        resp.conversation_id = row.conversation_id := by
  intro req env db resp db2 _ h
  rcases chat_run_shape req env db with ⟨e0, h0⟩ | ⟨q0, a0, h0⟩
  · rw [h0] at h
    simp [Prod.ext_iff] at h
  · rw [h0] at h
    obtain ⟨h1, h2⟩ := Prod.mk.injEq .. |>.mp h.symm
    obtain rfl : resp = ⟨a0, q0, req.user_query, some env.freshUuid⟩ := by
      simpa using h1
    refine ⟨⟨db.nextId, req.user_query, q0, a0, some env.freshUuid, env.now⟩,
      ?_, rfl, rfl, rfl, rfl, rfl⟩
    rw [h2]
    rfl

/-- C3 witness: the sample successful request appends the one record with
its `user_query` verbatim and returns that exchange. -/
theorem chat_success_one_record_witness :
    ∃ row : MessageLog,
      db0After.committed = db0.committed ++ [row] ∧
      row.user_query = req0.user_query ∧
      resp0.answer = row.answer ∧
      resp0.refined_query = row.refined_query ∧
      resp0.original_query = req0.user_query ∧
      resp0.conversation_id = row.conversation_id :=
  chat_success_one_record req0 envOK db0 resp0 db0After (by decide) rfl

/-- C8 counterexample: the timestamp of a committed record is the clock
value the orchestrator passes in (`datetime.utcnow()` at record
construction), not a store-assigned monotone value: two consecutive
successful requests on one store instance, with clock readings 9 then 5,
commit records whose timestamps are 9 then 5 — strictly decreasing. -/
theorem caller_clock_timestamps_counterexample :
    (chat req0 (envAt 5) (chat req0 (envAt 9) db0).2).2.committed.map
        (fun r => r.timestamp) = [9, 5] := rfl

/-- C8 (amended): the `id` field is assigned by the store at persistence
time (the caller constructs the pending record without it, and the store
uses its own counter), while the `timestamp` field is set by the
orchestrator from its own clock reading at record-construction time;
timestamps are monotonically non-decreasing across two requests provided
the orchestrator's clock readings are non-decreasing. -/
theorem append_assigns_id_caller_sets_timestamp :
    ∀ (req req2 : ChatRequest) (env env2 : ChatEnv) (db db2 db3 : DBState)
      (resp resp2 : ChatResponse),
      chat req env db = (.ok resp, db2) →
      (∃ row : MessageLog, db2.committed = db.committed ++ [row] ∧
        row.id = db.nextId ∧ db2.nextId = db.nextId + 1 ∧ row.timestamp = env.now) ∧
      (chat req2 env2 db2 = (.ok resp2, db3) → env.now ≤ env2.now →
        ∃ row row2 : MessageLog,
          db3.committed = db.committed ++ [row, row2] ∧
          row.timestamp ≤ row2.timestamp ∧
          row.id = db.nextId ∧ row2.id = db.nextId + 1) := by
  intro req req2 env env2 db db2 db3 resp resp2 h
  rcases chat_run_shape req env db with ⟨e0, h0⟩ | ⟨q0, a0, h0⟩
  · rw [h0] at h
    simp [Prod.ext_iff] at h
  · rw [h0] at h
    obtain ⟨h1, h2⟩ := Prod.mk.injEq .. |>.mp h.symm
    constructor
    · exact ⟨⟨db.nextId, req.user_query, q0, a0, some env.freshUuid, env.now⟩,
        by rw [h2]; rfl, rfl, by rw [h2]; rfl, rfl⟩
    · intro h3 hle
      rcases chat_run_shape req2 env2 db2 with ⟨e1, h4⟩ | ⟨q1, a1, h4⟩
      · rw [h4] at h3
        simp [Prod.ext_iff] at h3
      · rw [h4] at h3
        obtain ⟨h5, h6⟩ := Prod.mk.injEq .. |>.mp h3.symm
        refine ⟨⟨db.nextId, req.user_query, q0, a0, some env.freshUuid, env.now⟩,
          ⟨db2.nextId, req2.user_query, q1, a1, some env2.freshUuid, env2.now⟩,
          ?_, hle, rfl, ?_⟩
        · rw [h6, h2]
          simp [commitRecord]
        · rw [h2]
          rfl

/-- C8 (amended) witness: two consecutive successful requests with clock
readings 3 then 8 commit rows with store-assigned ids 0 and 1 and
non-decreasing timestamps. -/
theorem append_assigns_id_caller_sets_timestamp_witness :
    ∃ row row2 : MessageLog,
      (chat req0 (envAt 8) (chat req0 (envAt 3) db0).2).2.committed =
        db0.committed ++ [row, row2] ∧
      row.timestamp ≤ row2.timestamp ∧
      row.id = db0.nextId ∧ row2.id = db0.nextId + 1 :=
  (append_assigns_id_caller_sets_timestamp req0 req0 (envAt 3) (envAt 8) db0
      (chat req0 (envAt 3) db0).2 (chat req0 (envAt 8) (chat req0 (envAt 3) db0).2).2
      resp0 resp0 rfl).2 rfl (by decide)

/-- C7: the listing endpoint returns records sorted by timestamp
descending (in particular three stored records with timestamps t1 < t2 <
t3 come back in the order t3, t2, t1), and the `limit`/`offset`
parameters are applied after the conversation filter: the page is a slice
of the full filtered, sorted listing. -/
theorem messages_sorted_and_paginated :
    ∀ (limit offset : Nat) (cid : Option String) (db : DBState) (a b c : MessageLog)
      (n : Nat),
      List.Sorted tsDesc (get_messages limit offset cid db) ∧
      (a.timestamp < b.timestamp → b.timestamp < c.timestamp →
        get_messages 100 0 none ⟨[a, b, c], n⟩ = [c, b, a]) ∧
      (get_messages limit offset cid db =
        ((get_messages db.committed.length 0 cid db).drop offset).take limit) := by
  intro limit offset cid db a b c n
  refine ⟨?_, ?_, ?_⟩
  · have hs : List.Sorted tsDesc
        (List.insertionSort tsDesc (db.committed.filter (matchesConv cid))) :=
      List.sorted_insertionSort tsDesc _
    exact List.Pairwise.sublist
      ((List.take_sublist _ _).trans (List.drop_sublist _ _)) hs
  · intro h1 h2
    have hab : ¬ tsDesc a b := not_le.mpr h1
    have hbc : ¬ tsDesc b c := not_le.mpr h2
    have hac : ¬ tsDesc a c := not_le.mpr (h1.trans h2)
    simp [get_messages, matchesConv, List.insertionSort, List.orderedInsert,
      List.filter, hab, hbc, hac, List.take, List.drop]
  · have hlen : (List.insertionSort tsDesc
        (db.committed.filter (matchesConv cid))).length ≤ db.committed.length := by
      rw [List.length_insertionSort]
      exact List.length_filter_le _ _
    have hfull : get_messages db.committed.length 0 cid db =
        List.insertionSort tsDesc (db.committed.filter (matchesConv cid)) := by
      simp [get_messages, List.take_of_length_le hlen]
    rw [hfull]
    rfl

/-- C7 witness: three records with timestamps 1 < 2 < 3 come back newest
first, and a filtered page is the corresponding slice of the full
filtered listing. -/
theorem messages_sorted_and_paginated_witness :
    get_messages 100 0 none ⟨[rowA, rowB, rowC], 4⟩ = [rowC, rowB, rowA] :=
  (messages_sorted_and_paginated 100 0 none db0 rowA rowB rowC 4).2.1
    (by decide) (by decide)

end RagSpec
